import Mathlib

/-!
Verification of the OpenFront.io RL bridge against its specification.

Shallow embedding of the Python sources:
- `GameState` / `mkGameState` embed `game_wrapper.py` (`GameState.__init__`):
  each field is read from the decoded response payload with `data.get(key, default)`,
  modelled here as an `Option`-typed input record and `Option.getD`.
- `decodeAction` embeds the `np.unravel_index(action, (5, 11, 5, 7, 2, 10))`
  call of `environment_full_game.py` (`OpenFrontEnvFullGame.step`).
- `stepDispatch` embeds the action-decoding / cluster-validation / command
  dispatch portion of `OpenFrontEnvFullGame.step`.
- `computeReward` embeds `OpenFrontEnvFullGame._compute_reward`.
- `adaptiveDownsample` embeds `OpenFrontEnv._adaptive_downsample` (`environment.py`).
- `fullGameMask` embeds `OpenFrontEnvFullGame.action_masks`,
  `createActionMask` embeds `OpenFrontIOEnv._create_action_mask`.
- `sendCommandOutcome` embeds the success-check of `GameWrapper._send_command`.
- `closeWrapper` embeds `GameWrapper.close`.
- `stepTerminatedP12` / `stepTruncatedP12` embed the termination logic of
  `OpenFrontIOEnv.step` (phase 1-2 `openfrontio_env.py`).

Machine integers are modelled as `ℤ`/`ℕ` (Python ints are unbounded) and
floats as `ℚ`.  Python exceptions are modelled as `Option`/`Except` results.
-/

/-- One territory cluster as delivered in a snapshot: `tiles`, `border_tiles`,
`troop_count`, `center_x`, `center_y` (from the `clusters` payload entries). -/
structure Cluster where
  tiles : List (ℤ × ℤ)
  border_tiles : List (ℤ × ℤ)
  troop_count : ℤ
  center_x : ℚ
  center_y : ℚ
deriving Repr, DecidableEq

/-- A decoded JSON response payload for a snapshot: every field the
`GameState.__init__` constructor reads, `none` when the key is absent.
Mirrors the `data` dict of `game_wrapper.py`. -/
structure GameStateData where
  tick : Option ℤ := none
  game_over : Option Bool := none
  has_won : Option Bool := none
  has_lost : Option Bool := none
  tiles_owned : Option ℤ := none
  total_tiles : Option ℤ := none
  territory_pct : Option ℚ := none
  neutral_tiles : Option ℤ := none
  population : Option ℤ := none
  max_population : Option ℤ := none
  population_growth_rate : Option ℚ := none
  gold : Option ℤ := none
  num_cities : Option ℤ := none
  rank : Option ℤ := none
  total_players : Option ℤ := none
  alive_players : Option ℤ := none
  territory_map : Option (List (List ℤ)) := none
  troop_map : Option (List (List ℚ)) := none
  border_tiles : Option ℤ := none
  border_pressure : Option ℚ := none
  time_alive : Option ℤ := none
  nearest_threat_distance : Option ℚ := none
  territory_change : Option ℚ := none
  clusters : Option (List Cluster) := none
  cities_count : Option ℤ := none
  ports_count : Option ℤ := none
  silos_count : Option ℤ := none
  sam_launchers_count : Option ℤ := none
  defense_posts_count : Option ℤ := none
  factories_count : Option ℤ := none
  atom_bombs_available : Option ℤ := none
  hydrogen_bombs_available : Option ℤ := none
  can_launch_nuke : Option Bool := none
  can_build_city : Option Bool := none
  can_build_port : Option Bool := none
  can_build_silo : Option Bool := none
  can_build_sam : Option Bool := none
  our_cities_positions : Option (List (ℤ × ℤ)) := none
  our_ports_positions : Option (List (ℤ × ℤ)) := none
  our_silos_positions : Option (List (ℤ × ℤ)) := none
  our_sam_positions : Option (List (ℤ × ℤ)) := none
  our_defense_positions : Option (List (ℤ × ℤ)) := none
  our_factories_positions : Option (List (ℤ × ℤ)) := none
  enemy_buildings_positions : Option (List (ℤ × ℤ)) := none

/-- The constructed snapshot, one plain field per `self.<field> = data.get(...)`
assignment of `GameState.__init__` (the `_compute_derived_features` fields are
derived, not read from the payload, and are omitted). -/
structure GameState where
  tick : ℤ
  game_over : Bool
  has_won : Bool
  has_lost : Bool
  tiles_owned : ℤ
  total_tiles : ℤ
  territory_pct : ℚ
  neutral_tiles : ℤ
  population : ℤ
  max_population : ℤ
  population_growth_rate : ℚ
  gold : ℤ
  num_cities : ℤ
  rank : ℤ
  total_players : ℤ
  alive_players : ℤ
  territory_map : List (List ℤ)
  troop_map : List (List ℚ)
  border_tiles : ℤ
  border_pressure : ℚ
  time_alive : ℤ
  nearest_threat : ℚ
  territory_change : ℚ
  clusters : List Cluster
  cities_count : ℤ
  ports_count : ℤ
  silos_count : ℤ
  sam_launchers_count : ℤ
  defense_posts_count : ℤ
  factories_count : ℤ
  atom_bombs_available : ℤ
  hydrogen_bombs_available : ℤ
  can_launch_nuke : Bool
  can_build_city : Bool
  can_build_port : Bool
  can_build_silo : Bool
  can_build_sam : Bool
  our_cities_positions : List (ℤ × ℤ)
  our_ports_positions : List (ℤ × ℤ)
  our_silos_positions : List (ℤ × ℤ)
  our_sam_positions : List (ℤ × ℤ)
  our_defense_positions : List (ℤ × ℤ)
  our_factories_positions : List (ℤ × ℤ)
  enemy_buildings_positions : List (ℤ × ℤ)

/-- Embedding of `GameState.__init__` (`game_wrapper.py`): every
`data.get(key, default)` becomes `Option.getD` with the source's default. -/
def mkGameState (data : GameStateData) : GameState where
  tick := data.tick.getD 0
  game_over := data.game_over.getD false
  has_won := data.has_won.getD false
  has_lost := data.has_lost.getD false
  tiles_owned := data.tiles_owned.getD 0
  total_tiles := data.total_tiles.getD 1
  territory_pct := data.territory_pct.getD 0
  neutral_tiles := data.neutral_tiles.getD 0
  population := data.population.getD 0
  max_population := data.max_population.getD 1
  population_growth_rate := data.population_growth_rate.getD 0
  gold := data.gold.getD 0
  num_cities := data.num_cities.getD 0
  rank := data.rank.getD 1
  total_players := data.total_players.getD 1
  alive_players := data.alive_players.getD 1
  territory_map := data.territory_map.getD []
  troop_map := data.troop_map.getD []
  border_tiles := data.border_tiles.getD 0
  border_pressure := data.border_pressure.getD 0
  time_alive := data.time_alive.getD 0
  nearest_threat := data.nearest_threat_distance.getD 999
  territory_change := data.territory_change.getD 0
  clusters := data.clusters.getD []
  cities_count := data.cities_count.getD 0
  ports_count := data.ports_count.getD 0
  silos_count := data.silos_count.getD 0
  sam_launchers_count := data.sam_launchers_count.getD 0
  defense_posts_count := data.defense_posts_count.getD 0
  factories_count := data.factories_count.getD 0
  atom_bombs_available := data.atom_bombs_available.getD 0
  hydrogen_bombs_available := data.hydrogen_bombs_available.getD 0
  can_launch_nuke := data.can_launch_nuke.getD false
  can_build_city := data.can_build_city.getD false
  can_build_port := data.can_build_port.getD false
  can_build_silo := data.can_build_silo.getD false
  can_build_sam := data.can_build_sam.getD false
  our_cities_positions := data.our_cities_positions.getD []
  our_ports_positions := data.our_ports_positions.getD []
  our_silos_positions := data.our_silos_positions.getD []
  our_sam_positions := data.our_sam_positions.getD []
  our_defense_positions := data.our_defense_positions.getD []
  our_factories_positions := data.our_factories_positions.getD []
  enemy_buildings_positions := data.enemy_buildings_positions.getD []

/-- The payload with every field absent (an empty response dict `{}`). -/
def emptyGameStateData : GameStateData := {}

/-- Embedding of `OpenFrontEnvFullGame._compute_reward`
(`environment_full_game.py`).  Python floats become `ℚ`; the accumulation
`reward += ...` is threaded through `let` bindings in source order. -/
def computeReward (current : GameState) (previous : Option GameState)
    (actionSuccess : Bool) : ℚ :=
  match previous with
  | none => 1
  | some prev =>
    let territoryGained : ℤ := current.tiles_owned - prev.tiles_owned
    let r1 : ℚ := 0 + (territoryGained : ℚ) * 10
    let popIncrease : ℤ := current.population - prev.population
    let r2 : ℚ := r1 + (popIncrease : ℚ) * 5
    let r3 : ℚ :=
      if current.game_over && current.has_won then r2 + 200
      else if current.game_over && current.has_lost then r2 - 100
      else r2 + 1
    let playersEliminated : ℤ := prev.alive_players - current.alive_players
    let r4 : ℚ :=
      if 0 < playersEliminated then r3 + (playersEliminated : ℚ) * 50 else r3
    let goldGained : ℤ := current.gold - prev.gold
    let r5 : ℚ := r4 + (goldGained : ℚ) * (1 / 10)
    let buildingsBuilt : ℤ :=
      (current.cities_count - prev.cities_count) +
      (current.ports_count - prev.ports_count) +
      (current.silos_count - prev.silos_count) +
      (current.sam_launchers_count - prev.sam_launchers_count) +
      (current.defense_posts_count - prev.defense_posts_count) +
      (current.factories_count - prev.factories_count)
    let r6 : ℚ :=
      if 0 < buildingsBuilt then r5 + (buildingsBuilt : ℚ) * 20 else r5
    let nukesUsed : ℤ :=
      (prev.atom_bombs_available - current.atom_bombs_available) +
      (prev.hydrogen_bombs_available - current.hydrogen_bombs_available)
    if 0 < nukesUsed && actionSuccess then r6 + (nukesUsed : ℚ) * 100 else r6

/-- A structured full-game action, the tuple produced by
`np.unravel_index(action, (5, 11, 5, 7, 2, 10))` in
`OpenFrontEnvFullGame.step`. -/
structure DecodedAction where
  clusterId : ℕ
  actionType : ℕ
  intensityIdx : ℕ
  buildingIdx : ℕ
  nukeIdx : ℕ
  tile : ℕ
deriving Repr, DecidableEq

/-- Embedding of `np.unravel_index(action, (5, 11, 5, 7, 2, 10))` (C order:
the last dimension varies fastest); `none` models the `ValueError` numpy
raises for an index outside `[0, 38500)`. -/
def decodeAction (a : ℕ) : Option DecodedAction :=
  if a < 38500 then
    some { clusterId := a / 7700
           actionType := a / 700 % 11
           intensityIdx := a / 140 % 5
           buildingIdx := a / 20 % 7
           nukeIdx := a / 10 % 2
           tile := a % 10 }
  else none

/-- Modelled from the spec: the inverse mixed-radix `encode` of §4.4 / §8
("`decode(flat:int)` and `encode(StructuredAction)` are mutual inverses over
the declared mixed-radix dimensions").  No `encode` function exists under
`src/`; the source only ever decodes, so the encoder is the standard
mixed-radix composition over the code's declared `action_dims`
`(5, 11, 5, 7, 2, 10)`. -/
def encodeAction (d : DecodedAction) : ℕ :=
  ((((d.clusterId * 11 + d.actionType) * 5 + d.intensityIdx) * 7
      + d.buildingIdx) * 2 + d.nukeIdx) * 10 + d.tile

/-- A game-bridge command issued by the full-game step dispatch. -/
inductive GameCommand where
  | attackCluster (clusterId direction : ℕ) (intensity : ℚ)
  | buildUnit (unitType : String) (tileX tileY : ℚ)
  | launchNuke (nukeType : String) (tileX tileY : ℚ)
deriving Repr, DecidableEq

/-- The `self.intensities` list of `OpenFrontEnvFullGame`. -/
def intensities : List ℚ := [15/100, 30/100, 45/100, 60/100, 75/100]

/-- The `self.building_types` list of `OpenFrontEnvFullGame`. -/
def buildingTypes : List String :=
  ["None", "City", "Port", "Missile Silo", "SAM Launcher", "Defense Post", "Factory"]

/-- The `self.nuke_types` list of `OpenFrontEnvFullGame`. -/
def nukeTypes : List String := ["Atom Bomb", "Hydrogen Bomb"]

/-- Embedding of the action-handling portion of `OpenFrontEnvFullGame.step`:
decode the flat action, substitute `action_type = 8` (WAIT) when the decoded
cluster index is out of range for `self.current_clusters`, and dispatch.
The outer `Option` is `none` when the Python code would raise (numpy decode
failure or a list index out of range); the inner `Option GameCommand` is the
bridge command issued (`none` when no command is sent, i.e. a build action
with `building_idx = 0`). -/
def stepDispatch (a numClusters : ℕ) : Option (Option GameCommand) :=
  match decodeAction a with
  | none => none
  | some d =>
    let actionType := if numClusters ≤ d.clusterId then 8 else d.actionType
    if actionType ≤ 8 then
      match intensities[d.intensityIdx]? with
      | none => none
      | some intensity =>
          some (some (.attackCluster d.clusterId actionType intensity))
    else if actionType = 9 then
      if 0 < d.buildingIdx then
        match buildingTypes[d.buildingIdx]? with
        | none => none
        | some bt =>
            some (some (.buildUnit bt ((d.tile % 2 : ℕ) : ℚ)
              (((d.tile / 2 : ℕ) : ℚ) / 4)))
      else some none
    else
      match nukeTypes[d.nukeIdx]? with
      | none => none
      | some nt =>
          some (some (.launchNuke nt ((d.tile % 2 : ℕ) : ℚ)
            (((d.tile / 2 : ℕ) : ℚ) / 4)))

/-- A 2-D float array: explicit dimensions plus an entry function (entries
outside `[0,h) × [0,w)` are irrelevant).  Models the numpy arrays handed to
`_adaptive_downsample`. -/
structure Grid where
  h : ℕ
  w : ℕ
  entry : ℕ → ℕ → ℚ

/-- Semantics of `array.reshape(h/b, b, w/b, b).mean(axis=(1, 3))[:128, :128]`
for a grid whose dimensions are divisible by `b`: each output cell is the mean
of its `b×b` input block, and the result is cropped to at most `128×128`. -/
def blockPool (g : Grid) (b : ℕ) : Grid where
  h := min (g.h / b) 128
  w := min (g.w / b) 128
  entry := fun i j =>
    (∑ p ∈ Finset.range b, ∑ q ∈ Finset.range b, g.entry (i * b + p) (j * b + q))
      / ((b : ℚ) * (b : ℚ))

/-- Semantics of `array[::stride, ::stride][:128, :128]`: every `stride`-th
row and column, cropped to at most `128×128` (a slice `[::s]` of length `n`
has `⌈n / s⌉` elements). -/
def stridedSample (g : Grid) (stride : ℕ) : Grid where
  h := min ((g.h + stride - 1) / stride) 128
  w := min ((g.w + stride - 1) / stride) 128
  entry := fun i j => g.entry (i * stride) (j * stride)

/-- Embedding of `OpenFrontEnv._adaptive_downsample` (`environment.py`).
Branches in source order: exact-size copy; zero-pad when either dimension is
below 128; otherwise `scale = max(h/128, w/128)` selects 2×2 / 4×4 / 8×8
average pooling (`none` models the `ValueError` that `reshape` raises when
the block does not divide the dimensions) or strided slicing with
`stride = int(scale)`. -/
def adaptiveDownsample (g : Grid) : Option Grid :=
  if g.h = 128 ∧ g.w = 128 then some g
  else if g.h < 128 ∨ g.w < 128 then
    some { h := 128, w := 128
           entry := fun i j =>
             if i < min g.h 128 ∧ j < min g.w 128 then g.entry i j else 0 }
  else
    let scale : ℚ := max ((g.h : ℚ) / 128) ((g.w : ℚ) / 128)
    if scale ≤ 2 then
      if g.h % 2 = 0 ∧ g.w % 2 = 0 then some (blockPool g 2) else none
    else if scale ≤ 4 then
      if g.h % 4 = 0 ∧ g.w % 4 = 0 then some (blockPool g 4) else none
    else if scale ≤ 8 then
      if g.h % 8 = 0 ∧ g.w % 8 = 0 then some (blockPool g 8) else none
    else
      some (stridedSample g (Int.floor scale).toNat)

/-- Modelled from the spec (§4.3 "Adaptive downsampling", §8 item 2): scale
factor `s = max(h, w) / 128`; zero-pad when the source is smaller; copy when
`s ≈ 1`; block-average pooling with integer block size `round(s)` when
`1 < s ≤ 8`; sample every `round(s)`-th row/column when `s > 8`.  Written for
comparison against the code's `adaptiveDownsample`. -/
def specDownsample (g : Grid) : Grid :=
  let s : ℚ := (max g.h g.w : ℚ) / 128
  if g.h < 128 ∧ g.w < 128 then
    { h := 128, w := 128
      entry := fun i j => if i < g.h ∧ j < g.w then g.entry i j else 0 }
  else if s ≤ 1 then g
  else if s ≤ 8 then blockPool g (round s).toNat
  else stridedSample g (round s).toNat

/-- A 130×130 all-zero mask: the smallest even square size strictly above the
128×128 target. -/
def grid130 : Grid := { h := 130, w := 130, entry := fun _ _ => 0 }

/-- A 129×129 all-zero mask (odd dimensions just above the target). -/
def grid129 : Grid := { h := 129, w := 129, entry := fun _ _ => 0 }

/-- A 384×384 grid (scale factor exactly 3) whose only non-zero entry is a
one at the top-left corner. -/
def grid384 : Grid :=
  { h := 384, w := 384, entry := fun i j => if i = 0 ∧ j = 0 then 1 else 0 }

/-- A 256×256 all-zero mask (scale factor exactly 2, the documented default
`australia_256x256` map size). -/
def grid256 : Grid := { h := 256, w := 256, entry := fun _ _ => 0 }

/-- The snapshot capability fields that `OpenFrontEnvFullGame.action_masks`
reads from `self.game.get_state()`. -/
structure BuildCaps where
  canBuildCity : Bool
  canBuildPort : Bool
  canBuildSilo : Bool
  canBuildSam : Bool
  canLaunchNuke : Bool
  atomBombs : ℤ
  hydrogenBombs : ℤ
deriving Repr, DecidableEq

/-- Embedding of `OpenFrontEnvFullGame.action_masks` (game present, not the
stub branch): the characteristic function of the boolean mask of shape
`(5, 11, 5, 7, 2, 10)` built by the source's fill loops.  The mask starts all
`False`; a cell is `True` exactly when one of the loops sets it:
attacks `mask[c, 0..8, 0..4, 0, 0, 0]` for every existing cluster `c`;
builds `mask[c, 9, 0, b, 0, 0..9]` gated on the `can_build_*` flags
(`b ∈ {4, 5, 6}` all gated on `can_build_sam`); nukes `mask[c, 10, 0, 0, n, 0..9]`
gated on `can_launch_nuke` and the bomb inventory counts. -/
def fullGameMask (numClusters : ℕ) (s : BuildCaps)
    (c aty it bt nt tl : ℕ) : Bool :=
  decide (c < min numClusters 5) &&
    ((decide (aty ≤ 8) && decide (it < 5) && decide (bt = 0) && decide (nt = 0)
        && decide (tl = 0))
     || (decide (aty = 9) && decide (it = 0) && decide (nt = 0)
          && decide (tl < 10)
          && ((decide (bt = 1) && s.canBuildCity)
              || (decide (bt = 2) && s.canBuildPort)
              || (decide (bt = 3) && s.canBuildSilo)
              || ((decide (bt = 4) || decide (bt = 5) || decide (bt = 6))
                    && s.canBuildSam)))
     || (decide (aty = 10) && decide (it = 0) && decide (bt = 0)
          && decide (tl < 10) && s.canLaunchNuke
          && ((decide (nt = 0) && decide (0 < s.atomBombs))
              || (decide (nt = 1) && decide (0 < s.hydrogenBombs)))))

/-- A capability record with every `can_*` flag set and both bomb counts
positive (the most permissive snapshot). -/
def allCaps : BuildCaps :=
  { canBuildCity := true, canBuildPort := true, canBuildSilo := true
    canBuildSam := true, canLaunchNuke := true
    atomBombs := 1, hydrogenBombs := 1 }

/-- Embedding of `OpenFrontIOEnv._create_action_mask` (phase 1-2): a length-9
mask with `mask[0] = 1` (IDLE always valid) and `mask[i + 1] = 1` for
`i < min(len(neighbors), 8)`. -/
def createActionMask (numNeighbors : ℕ) (i : ℕ) : Bool :=
  decide (i = 0) || (decide (1 ≤ i) && decide (i ≤ min numNeighbors 8))

/-- An RPC response as read by `GameWrapper._send_command`: the `success`
field (absent = `none`) and the `error` message field. -/
structure RpcResponse where
  success : Option Bool
  errorMsg : Option String
deriving Repr, DecidableEq

/-- Embedding of the response-checking tail of `GameWrapper._send_command`
(`game_wrapper.py`): `if not response.get('success', False)` then commands of
type `build_unit` / `launch_nuke` return the response unchanged, every other
command type raises `RuntimeError` (modelled as `Except.error`). -/
def sendCommandOutcome (commandType : String) (resp : RpcResponse) :
    Except String RpcResponse :=
  if (resp.success.getD false) = false then
    if commandType = "build_unit" ∨ commandType = "launch_nuke" then
      Except.ok resp
    else
      Except.error ("Game bridge error: " ++ resp.errorMsg.getD "Unknown error")
  else Except.ok resp

/-- An observable side effect of `GameWrapper.close`. -/
inductive CloseEffect where
  | shutdownCommand
  | waitGrace
  | kill
  | waitKill
deriving Repr, DecidableEq

/-- The wrapper state `GameWrapper.close` touches: the child-process handle
(`self.process`), `none` once closed. -/
structure WrapperState where
  process : Option ℕ
deriving Repr, DecidableEq

/-- Embedding of `GameWrapper.close` (`game_wrapper.py`): when a process
handle is present, send `shutdown` and wait with a 2-second grace period
(`gracefulFails = true` models any exception on that path, answered by
`kill()` + `wait()`), then set `self.process = None`; when the handle is
already `None`, do nothing.  Returns the new state and the effects
performed. -/
def closeWrapper (s : WrapperState) (gracefulFails : Bool) :
    WrapperState × List CloseEffect :=
  match s.process with
  | none => (s, [])
  | some _ =>
    if gracefulFails then
      ({ process := none },
        [CloseEffect.shutdownCommand, CloseEffect.kill, CloseEffect.waitKill])
    else
      ({ process := none }, [CloseEffect.shutdownCommand, CloseEffect.waitGrace])

/-- Embedding of the `terminated` computation of `OpenFrontIOEnv.step`
(phase 1-2): `terminated = game_over or has_won or has_lost`, then the
stalemate check `if not terminated and len(neighbors) == 0 and
tiles_owned > 0: terminated = True` (where `neighbors` is the attackable
list fetched at the start of this step, before the tick). -/
def stepTerminatedP12 (gameOver hasWon hasLost : Bool)
    (numNeighbors tilesOwned : ℕ) : Bool :=
  let term := gameOver || hasWon || hasLost
  if !term && decide (numNeighbors = 0) && decide (0 < tilesOwned) then true
  else term

/-- Embedding of `truncated = self.step_count >= self.max_steps and not
terminated` of `OpenFrontIOEnv.step`. -/
def stepTruncatedP12 (stepCount maxSteps : ℕ) (terminated : Bool) : Bool :=
  decide (maxSteps ≤ stepCount) && !terminated

/-- Modelled from the claim for refutation: `terminated=true` iff
`gameOver || hasWon || hasLost`, or the player holds territory while the
cluster/neighbor set has been empty for two consecutive ticks
(`emptyPrevTick` and `emptyCurrTick`). -/
def claimTerminated (gameOver hasWon hasLost : Bool) (tilesOwned : ℕ)
    (emptyPrevTick emptyCurrTick : Bool) : Bool :=
  gameOver || hasWon || hasLost
    || (decide (0 < tilesOwned) && emptyPrevTick && emptyCurrTick)

/-- C1 counterexample: at a concrete input where the neighbor set is empty on
this tick only (it was non-empty on the previous tick), `gameOver`, `hasWon`
and `hasLost` are all false and the player owns 5 tiles, the code returns
`terminated = true` while the claim (which requires the set to have been
empty for two consecutive ticks) says `terminated = false`. -/
theorem c1_terminated_counterexample :
    stepTerminatedP12 false false false 0 5 = true ∧
    claimTerminated false false false 5 false true = false := by
  exact ⟨rfl, rfl⟩

/-- C1 (amended): in `OpenFrontIOEnv.step`, `terminated` is true iff the new
snapshot has `game_over`, `has_won` or `has_lost` set, or the attackable
neighbor set fetched at the start of this step is empty while the player
holds territory (a single empty reading suffices, not two consecutive
ticks); `truncated` is true iff `step_count >= max_steps` and the episode is
not already terminated. -/
theorem c1_termination_amended (g w l : Bool)
    (numNeighbors tilesOwned stepCount maxSteps : ℕ) :
    stepTerminatedP12 g w l numNeighbors tilesOwned
      = (g || w || l || (decide (numNeighbors = 0) && decide (0 < tilesOwned))) ∧
    stepTruncatedP12 stepCount maxSteps
        (stepTerminatedP12 g w l numNeighbors tilesOwned)
      = (decide (maxSteps ≤ stepCount)
          && !(g || w || l
                || (decide (numNeighbors = 0) && decide (0 < tilesOwned)))) := by
  have h1 : stepTerminatedP12 g w l numNeighbors tilesOwned
      = (g || w || l || (decide (numNeighbors = 0) && decide (0 < tilesOwned))) := by
    simp only [stepTerminatedP12]
    cases g <;> cases w <;> cases l <;>
      by_cases hn : numNeighbors = 0 <;> by_cases ht : 0 < tilesOwned <;>
        simp [hn, ht]
  exact ⟨h1, by rw [h1]; rfl⟩

/-- C2: the flat-integer action codec is a bijection over the declared
mixed-radix dimensions `(5, 11, 5, 7, 2, 10)`: decoding any flat action in
`[0, 38500)` and re-encoding it yields the same flat action, and encoding any
structured action whose components are within the dimension bounds and
decoding the result yields the same structured action. -/
theorem c2_codec_roundtrip (a c t i b n tl : ℕ) (ha : a < 38500)
    (h0 : c < 5) (h1 : t < 11) (h2 : i < 5) (h3 : b < 7) (h4 : n < 2)
    (h5 : tl < 10) :
    (decodeAction a).map encodeAction = some a ∧
    decodeAction (encodeAction ⟨c, t, i, b, n, tl⟩) = some ⟨c, t, i, b, n, tl⟩ := by
  constructor
  · simp only [decodeAction, if_pos ha, Option.map_some', encodeAction]
    congr 1
    omega
  · have hval : encodeAction ⟨c, t, i, b, n, tl⟩
        = ((((c * 11 + t) * 5 + i) * 7 + b) * 2 + n) * 10 + tl := rfl
    rw [hval]
    have he : ((((c * 11 + t) * 5 + i) * 7 + b) * 2 + n) * 10 + tl < 38500 := by
      omega
    simp only [decodeAction, if_pos he, Option.some.injEq,
      DecodedAction.mk.injEq]
    omega

/-- C2 witness: the round trip at the concrete flat action 12345 and the
concrete structured action (1, 2, 3, 4, 1, 7). -/
theorem c2_codec_roundtrip_witness :
    (decodeAction 12345).map encodeAction = some 12345 ∧
    decodeAction (encodeAction ⟨1, 2, 3, 4, 1, 7⟩) = some ⟨1, 2, 3, 4, 1, 7⟩ :=
  c2_codec_roundtrip 12345 1 2 3 4 1 7 (by decide) (by decide) (by decide)
    (by decide) (by decide) (by decide) (by decide)

/-- C3: whenever the decoded cluster index is at least the number of clusters
in the current snapshot, the full-game step dispatch does not raise (the
result is `some _`, never the exception marker `none`): the action is
substituted with direction 8 (WAIT) and an attack command with that no-op
direction is issued. -/
theorem c3_invalid_cluster_waits (a numClusters : ℕ) (d : DecodedAction)
    (hd : decodeAction a = some d) (hcl : numClusters ≤ d.clusterId) :
    ∃ q, stepDispatch a numClusters
      = some (some (GameCommand.attackCluster d.clusterId 8 q)) := by
  have hlt : d.intensityIdx < 5 := by
    by_cases h : a < 38500
    · simp only [decodeAction, if_pos h, Option.some.injEq] at hd
      subst hd
      exact Nat.mod_lt _ (by norm_num)
    · simp [decodeAction, h] at hd
  obtain ⟨q, hq⟩ : ∃ q, intensities[d.intensityIdx]? = some q :=
    ⟨intensities.get ⟨d.intensityIdx, by simpa [intensities] using hlt⟩,
      List.getElem?_eq_getElem (by simpa [intensities] using hlt)⟩
  refine ⟨q, ?_⟩
  simp only [stepDispatch, hd, if_pos hcl]
  simp [hq]

/-- C3 witness: flat action 0 with an empty cluster list decodes to cluster 0
(out of range), is executed as a WAIT attack, and the dispatch returns a
value rather than raising. -/
theorem c3_invalid_cluster_waits_witness :
    decodeAction 0 = some ⟨0, 0, 0, 0, 0, 0⟩ ∧
    ∃ q, stepDispatch 0 0 = some (some (GameCommand.attackCluster 0 8 q)) :=
  ⟨by rfl, c3_invalid_cluster_waits 0 0 ⟨0, 0, 0, 0, 0, 0⟩ (by rfl) (by decide)⟩

/-- C7: for an RPC response whose `success` field is absent or `false`, the
bridge raises (`Except.error`) exactly when the command type is neither
`build_unit` nor `launch_nuke`; for those two command types the unsuccessful
response is returned to the caller as a normal `Except.ok` outcome. -/
theorem c7_send_failure_raises (commandType : String) (resp : RpcResponse)
    (h : resp.success.getD false = false) :
    (∃ e, sendCommandOutcome commandType resp = Except.error e) ↔
      (commandType ≠ "build_unit" ∧ commandType ≠ "launch_nuke") := by
  simp only [sendCommandOutcome, if_pos h]
  by_cases hb : commandType = "build_unit" ∨ commandType = "launch_nuke"
  · simp only [if_pos hb]
    constructor
    · rintro ⟨e, he⟩
      exact absurd he (by simp)
    · rintro ⟨hbu, hln⟩
      rcases hb with hb | hb <;> simp [hb] at hbu hln
  · simp only [if_neg hb]
    push_neg at hb
    exact ⟨fun _ => hb, fun _ => ⟨_, rfl⟩⟩

/-- C7 witness: a `tick` command with an absent `success` field raises, per
the equivalence instantiated at that concrete input. -/
theorem c7_send_failure_raises_witness :
    (∃ e, sendCommandOutcome "tick" { success := none, errorMsg := none }
        = Except.error e) ↔
      ("tick" ≠ "build_unit" ∧ "tick" ≠ "launch_nuke") :=
  c7_send_failure_raises "tick" { success := none, errorMsg := none } rfl

/-- C9 counterexample: on the empty payload `{}`, the constructed snapshot
reads `total_tiles`, `rank`, `total_players` and `alive_players` as 1, not 0
as the claim states. -/
theorem c9_defaults_counterexample :
    (mkGameState emptyGameStateData).total_tiles = 1 ∧
    (mkGameState emptyGameStateData).rank = 1 ∧
    (mkGameState emptyGameStateData).total_players = 1 ∧
    (mkGameState emptyGameStateData).alive_players = 1 ∧
    (1 : ℤ) ≠ 0 :=
  ⟨rfl, rfl, rfl, rfl, by decide⟩

/-- C9 (amended): every absent snapshot field takes the constructor's
documented default: 0 for most numeric fields, false for booleans, empty for
list/grid fields — except `total_tiles`, `max_population`, `rank`,
`total_players` and `alive_players`, which default to 1, and
`nearest_threat_distance`, which defaults to 999.0. -/
theorem c9_defaults_amended (d : GameStateData) :
    (d.tick = none → (mkGameState d).tick = 0) ∧
    (d.game_over = none → (mkGameState d).game_over = false) ∧
    (d.has_won = none → (mkGameState d).has_won = false) ∧
    (d.has_lost = none → (mkGameState d).has_lost = false) ∧
    (d.tiles_owned = none → (mkGameState d).tiles_owned = 0) ∧
    (d.total_tiles = none → (mkGameState d).total_tiles = 1) ∧
    (d.territory_pct = none → (mkGameState d).territory_pct = 0) ∧
    (d.neutral_tiles = none → (mkGameState d).neutral_tiles = 0) ∧
    (d.population = none → (mkGameState d).population = 0) ∧
    (d.max_population = none → (mkGameState d).max_population = 1) ∧
    (d.gold = none → (mkGameState d).gold = 0) ∧
    (d.num_cities = none → (mkGameState d).num_cities = 0) ∧
    (d.rank = none → (mkGameState d).rank = 1) ∧
    (d.total_players = none → (mkGameState d).total_players = 1) ∧
    (d.alive_players = none → (mkGameState d).alive_players = 1) ∧
    (d.territory_map = none → (mkGameState d).territory_map = []) ∧
    (d.troop_map = none → (mkGameState d).troop_map = []) ∧
    (d.border_tiles = none → (mkGameState d).border_tiles = 0) ∧
    (d.time_alive = none → (mkGameState d).time_alive = 0) ∧
    (d.nearest_threat_distance = none → (mkGameState d).nearest_threat = 999) ∧
    (d.clusters = none → (mkGameState d).clusters = []) ∧
    (d.cities_count = none → (mkGameState d).cities_count = 0) ∧
    (d.atom_bombs_available = none → (mkGameState d).atom_bombs_available = 0) ∧
    (d.can_launch_nuke = none → (mkGameState d).can_launch_nuke = false) ∧
    (d.can_build_city = none → (mkGameState d).can_build_city = false) ∧
    (d.our_cities_positions = none → (mkGameState d).our_cities_positions = []) := by
  repeat' constructor
  all_goals intro h
  all_goals simp [mkGameState, h]

/-- C9 witness: the amended defaults instantiated on the empty payload. -/
theorem c9_defaults_amended_witness :
    (mkGameState emptyGameStateData).tick = 0 ∧
    (mkGameState emptyGameStateData).total_tiles = 1 ∧
    (mkGameState emptyGameStateData).nearest_threat = 999 :=
  ⟨(c9_defaults_amended emptyGameStateData).1 rfl,
   (c9_defaults_amended emptyGameStateData).2.2.2.2.2.1 rfl,
   (c9_defaults_amended emptyGameStateData).2.2.2.2.2.2.2.2.2.2.2.2.2.2.2.2.2.2.2.1 rfl⟩

/-- C10: `GameWrapper.close` is idempotent and safe on an already-closed
instance: every call leaves the process handle `None`; the first call on a
live process starts by sending the `shutdown` command; calling close again on
the resulting state (as `__del__` and the `atexit` hook do) performs no
effects and leaves the state unchanged; and a call on an already-closed
state is a no-op. -/
theorem c10_close_idempotent (s : WrapperState) (b1 b2 : Bool) :
    ((closeWrapper s b1).1.process = none) ∧
    (closeWrapper (closeWrapper s b1).1 b2 = ((closeWrapper s b1).1, [])) ∧
    (∀ p, s.process = some p →
      (closeWrapper s b1).2.head? = some CloseEffect.shutdownCommand) ∧
    (s.process = none → closeWrapper s b1 = (s, [])) := by
  obtain ⟨proc⟩ := s
  cases proc <;> cases b1 <;> simp [closeWrapper]

/-- C10 witness: a wrapper holding process handle 7, closed gracefully and
then closed again. -/
theorem c10_close_idempotent_witness :
    ((closeWrapper { process := some 7 } false).1.process = none) ∧
    closeWrapper (closeWrapper { process := some 7 } false).1 true
      = ((closeWrapper { process := some 7 } false).1, []) ∧
    (closeWrapper { process := some 7 } false).2.head?
      = some CloseEffect.shutdownCommand :=
  ⟨(c10_close_idempotent { process := some 7 } false true).1,
   (c10_close_idempotent { process := some 7 } false true).2.1,
   (c10_close_idempotent { process := some 7 } false true).2.2.1 7 rfl⟩

/-- C4 (code bug): evaluated at a 130×130 territory mask, the downsampler
returns a 65×65 grid — not the claimed constant 128×128 — so the subsequent
128×128 channel assignment in `_extract_map` fails; at a 129×129 mask the
`reshape` call raises outright (`none`). -/
theorem c4_observation_shape_bug :
    (adaptiveDownsample grid130).map (fun g => (g.h, g.w)) = some (65, 65) ∧
    adaptiveDownsample grid129 = none ∧
    ((65, 65) : ℕ × ℕ) ≠ (128, 128) := by
  refine ⟨?_, ?_, by decide⟩
  · have h1 : adaptiveDownsample grid130 = some (blockPool grid130 2) := by
      simp only [adaptiveDownsample, grid130]
      norm_num
    rw [h1]
    norm_num [blockPool, grid130]
  · simp only [adaptiveDownsample, grid129]
    norm_num

/-- C5 counterexample: on a 384×384 grid (scale factor exactly 3) whose only
non-zero cell is a 1 at the origin, the code block-averages 4×4 blocks and
produces 1/16 in the output corner, while the claim's `round(s) = 3` block
size predicts 1/9. -/
theorem c5_block_size_counterexample :
    (adaptiveDownsample grid384).map (fun g => g.entry 0 0) = some (1 / 16) ∧
    (specDownsample grid384).entry 0 0 = 1 / 9 ∧
    ((1 : ℚ) / 16) ≠ 1 / 9 := by
  refine ⟨?_, ?_, by norm_num⟩
  · have h1 : adaptiveDownsample grid384 = some (blockPool grid384 4) := by
      simp only [adaptiveDownsample, grid384]
      norm_num
    rw [h1]
    norm_num [blockPool, grid384, Finset.sum_range_succ, Finset.sum_range_zero]
  · have h2 : specDownsample grid384 = blockPool grid384 3 := by
      simp only [specDownsample, grid384]
      norm_num [round_ofNat]
      rfl
    rw [h2]
    norm_num [blockPool, grid384, Finset.sum_range_succ, Finset.sum_range_zero]

/-- The float scale `max(h/128, w/128)` computed by `_adaptive_downsample`
equals `max(h, w) / 128` over `ℚ`. -/
theorem adaptiveScale_eq (g : Grid) :
    max ((g.h : ℚ) / 128) ((g.w : ℚ) / 128) = ((max g.h g.w : ℕ) : ℚ) / 128 := by
  rw [max_div_div_right (by norm_num : (0 : ℚ) ≤ 128), Nat.cast_max]

/-- The rational scale stays below a threshold `c` when both dimensions are
at most `c * 128`. -/
theorem adaptiveScale_le (g : Grid) (c : ℚ) (hh : (g.h : ℚ) ≤ c * 128)
    (hw : (g.w : ℚ) ≤ c * 128) :
    max ((g.h : ℚ) / 128) ((g.w : ℚ) / 128) ≤ c := by
  apply max_le <;> rw [div_le_iff₀ (by norm_num : (0 : ℚ) < 128)]
  · exact hh
  · exact hw

/-- The rational scale exceeds a threshold `c` when `max(h, w)` exceeds
`c * 128`. -/
theorem adaptiveScale_not_le (g : Grid) (c : ℚ)
    (h : c * 128 < ((max g.h g.w : ℕ) : ℚ)) :
    ¬max ((g.h : ℚ) / 128) ((g.w : ℚ) / 128) ≤ c := by
  rw [adaptiveScale_eq, not_le, lt_div_iff₀ (by norm_num : (0 : ℚ) < 128)]
  exact h

/-- C5 (amended): the downsampler is deterministic, returns a 128×128 grid
unchanged, zero-pads when either source dimension is below 128, and for
larger sources selects the block size by scale bucket — 2×2 pooling when
`s ≤ 2`, 4×4 when `2 < s ≤ 4`, 8×8 when `4 < s ≤ 8` (not the claimed
`round(s)`), requiring the block to divide the dimensions — and for `s > 8`
strides by `⌊s⌋` (not `round(s)`). -/
theorem c5_downsample_amended (g : Grid) :
    (adaptiveDownsample g = adaptiveDownsample g) ∧
    (g.h = 128 ∧ g.w = 128 → adaptiveDownsample g = some g) ∧
    (¬(g.h = 128 ∧ g.w = 128) → g.h < 128 ∨ g.w < 128 →
      adaptiveDownsample g = some
        { h := 128, w := 128
          entry := fun i j =>
            if i < min g.h 128 ∧ j < min g.w 128 then g.entry i j else 0 }) ∧
    (¬(g.h = 128 ∧ g.w = 128) → 128 ≤ g.h → 128 ≤ g.w →
      (max g.h g.w ≤ 256 → g.h % 2 = 0 → g.w % 2 = 0 →
        adaptiveDownsample g = some (blockPool g 2)) ∧
      (256 < max g.h g.w → max g.h g.w ≤ 512 → g.h % 4 = 0 → g.w % 4 = 0 →
        adaptiveDownsample g = some (blockPool g 4)) ∧
      (512 < max g.h g.w → max g.h g.w ≤ 1024 → g.h % 8 = 0 → g.w % 8 = 0 →
        adaptiveDownsample g = some (blockPool g 8)) ∧
      (1024 < max g.h g.w →
        adaptiveDownsample g = some (stridedSample g (max g.h g.w / 128)))) := by
  refine ⟨rfl, ?_, ?_, ?_⟩
  · intro hb
    simp only [adaptiveDownsample, if_pos hb]
  · intro hnb hlt
    simp only [adaptiveDownsample, if_neg hnb, if_pos hlt]
  · intro hnb hh hw
    have hnlt : ¬(g.h < 128 ∨ g.w < 128) := by omega
    refine ⟨?_, ?_, ?_, ?_⟩
    · intro hm he2 hw2
      have hc2 : max ((g.h : ℚ) / 128) ((g.w : ℚ) / 128) ≤ 2 := by
        have h1 : (g.h : ℚ) ≤ 256 := by
          exact_mod_cast le_trans (le_max_left g.h g.w) hm
        have h2 : (g.w : ℚ) ≤ 256 := by
          exact_mod_cast le_trans (le_max_right g.h g.w) hm
        exact adaptiveScale_le g 2 (by linarith) (by linarith)
      simp only [adaptiveDownsample, if_neg hnb, if_neg hnlt, if_pos hc2,
        if_pos (And.intro he2 hw2)]
    · intro hm2 hm he4 hw4
      have hq2 : (256 : ℚ) < ((max g.h g.w : ℕ) : ℚ) := by exact_mod_cast hm2
      have hn2 := adaptiveScale_not_le g 2 (by linarith)
      have hc4 : max ((g.h : ℚ) / 128) ((g.w : ℚ) / 128) ≤ 4 := by
        have h1 : (g.h : ℚ) ≤ 512 := by
          exact_mod_cast le_trans (le_max_left g.h g.w) hm
        have h2 : (g.w : ℚ) ≤ 512 := by
          exact_mod_cast le_trans (le_max_right g.h g.w) hm
        exact adaptiveScale_le g 4 (by linarith) (by linarith)
      simp only [adaptiveDownsample, if_neg hnb, if_neg hnlt, if_neg hn2,
        if_pos hc4, if_pos (And.intro he4 hw4)]
    · intro hm4 hm he8 hw8
      have hq4 : (512 : ℚ) < ((max g.h g.w : ℕ) : ℚ) := by exact_mod_cast hm4
      have hn2 := adaptiveScale_not_le g 2 (by linarith)
      have hn4 := adaptiveScale_not_le g 4 (by linarith)
      have hc8 : max ((g.h : ℚ) / 128) ((g.w : ℚ) / 128) ≤ 8 := by
        have h1 : (g.h : ℚ) ≤ 1024 := by
          exact_mod_cast le_trans (le_max_left g.h g.w) hm
        have h2 : (g.w : ℚ) ≤ 1024 := by
          exact_mod_cast le_trans (le_max_right g.h g.w) hm
        exact adaptiveScale_le g 8 (by linarith) (by linarith)
      simp only [adaptiveDownsample, if_neg hnb, if_neg hnlt, if_neg hn2,
        if_neg hn4, if_pos hc8, if_pos (And.intro he8 hw8)]
    · intro hm8
      have hq8 : (1024 : ℚ) < ((max g.h g.w : ℕ) : ℚ) := by exact_mod_cast hm8
      have hn2 := adaptiveScale_not_le g 2 (by linarith)
      have hn4 := adaptiveScale_not_le g 4 (by linarith)
      have hn8 := adaptiveScale_not_le g 8 (by linarith)
      have hstride : (⌊max ((g.h : ℚ) / 128) ((g.w : ℚ) / 128)⌋).toNat
          = max g.h g.w / 128 := by
        rw [adaptiveScale_eq, Int.floor_toNat, Nat.floor_div_ofNat,
          Nat.floor_natCast]
      simp only [adaptiveDownsample, if_neg hnb, if_neg hnlt, if_neg hn2,
        if_neg hn4, if_neg hn8, hstride]

/-- C5 witness: the amended characterization instantiated on a 256×256 grid
(scale factor exactly 2), which the code pools with 2×2 blocks. -/
theorem c5_downsample_amended_witness :
    adaptiveDownsample grid256 = some (blockPool grid256 2) :=
  ((c5_downsample_amended grid256).2.2.2 (by decide) (by decide) (by decide)).1
    (by decide) (by decide) (by decide)

/-- C6: the full-game reward is a deterministic function of its inputs, and —
holding the previous snapshot, the action-success flag and every other field
of the current snapshot fixed — a strictly larger territory gain (delta of
`tiles_owned` from the previous snapshot) yields a strictly larger reward. -/
theorem c6_reward_deterministic_monotone (prev c1 c2 : GameState) (a : Bool)
    (hpop : c1.population = c2.population)
    (hgo : c1.game_over = c2.game_over)
    (hhw : c1.has_won = c2.has_won)
    (hhl : c1.has_lost = c2.has_lost)
    (hal : c1.alive_players = c2.alive_players)
    (hgold : c1.gold = c2.gold)
    (hcit : c1.cities_count = c2.cities_count)
    (hpor : c1.ports_count = c2.ports_count)
    (hsil : c1.silos_count = c2.silos_count)
    (hsam : c1.sam_launchers_count = c2.sam_launchers_count)
    (hdef : c1.defense_posts_count = c2.defense_posts_count)
    (hfac : c1.factories_count = c2.factories_count)
    (hab : c1.atom_bombs_available = c2.atom_bombs_available)
    (hhb : c1.hydrogen_bombs_available = c2.hydrogen_bombs_available)
    (ht : c1.tiles_owned < c2.tiles_owned) :
    (computeReward c1 (some prev) a = computeReward c1 (some prev) a) ∧
    computeReward c1 (some prev) a < computeReward c2 (some prev) a := by
  refine ⟨rfl, ?_⟩
  have hq : (c1.tiles_owned : ℚ) < (c2.tiles_owned : ℚ) := by exact_mod_cast ht
  simp only [computeReward, hpop, hgo, hhw, hhl, hal, hgold, hcit, hpor, hsil,
    hsam, hdef, hfac, hab, hhb]
  split_ifs <;> push_cast <;> linarith

/-- C6 witness: the default snapshot against a copy that owns 5 more tiles. -/
theorem c6_reward_witness :
    computeReward (mkGameState emptyGameStateData)
        (some (mkGameState emptyGameStateData)) true
      < computeReward
          { mkGameState emptyGameStateData with tiles_owned := 5 }
          (some (mkGameState emptyGameStateData)) true :=
  (c6_reward_deterministic_monotone (mkGameState emptyGameStateData)
    (mkGameState emptyGameStateData)
    { mkGameState emptyGameStateData with tiles_owned := 5 } true
    rfl rfl rfl rfl rfl rfl rfl rfl rfl rfl rfl rfl rfl rfl (by decide)).2

/-- C8 counterexample: with zero clusters, the full-game action mask is
entirely false even with every capability available — no globally-safe no-op
remains valid, contradicting the claim that exactly one does. -/
theorem c8_mask_counterexample :
    ¬∃ c aty it bt nt tl : ℕ, fullGameMask 0 allCaps c aty it bt nt tl = true := by
  rintro ⟨c, aty, it, bt, nt, tl, hmask⟩
  simp [fullGameMask] at hmask

/-- C8 (amended): in the full-game mask, every existing cluster (index below
`min(numClusters, 5)`) has its Wait action (attack direction 8) valid; with
zero clusters the full-game mask is entirely false (no valid action remains,
rather than a single no-op); only the phase 1-2 neighbor mask keeps exactly
the IDLE action valid when no neighbor exists. -/
theorem c8_mask_amended (nc : ℕ) (caps : BuildCaps) :
    (∀ c, c < min nc 5 → fullGameMask nc caps c 8 0 0 0 0 = true) ∧
    (∀ c aty it bt nt tl, fullGameMask 0 caps c aty it bt nt tl = false) ∧
    (∀ i, createActionMask 0 i = true ↔ i = 0) := by
  refine ⟨fun c hc => ?_, fun c aty it bt nt tl => ?_, fun i => ?_⟩
  · simp [fullGameMask, hc]
  · simp [fullGameMask]
  · simp only [createActionMask, Bool.or_eq_true, Bool.and_eq_true,
      decide_eq_true_eq]
    omega

/-- C8 witness: the amended facts at three concrete mask queries. -/
theorem c8_mask_amended_witness :
    fullGameMask 3 allCaps 0 8 0 0 0 0 = true ∧
    fullGameMask 0 allCaps 1 2 3 4 1 5 = false ∧
    (createActionMask 0 0 = true ↔ (0 : ℕ) = 0) :=
  ⟨(c8_mask_amended 3 allCaps).1 0 (by decide),
   (c8_mask_amended 0 allCaps).2.1 1 2 3 4 1 5,
   (c8_mask_amended 0 allCaps).2.2 0⟩
